import Mathlib

/-!
Shallow embedding of `src/serverfinal.js` (LegalAllyBackend): two provider
adapter functions (`analyzeContractWithGemini`, `getGroqChatCompletion`,
`getGroqChatCompletionForQuery`) and the three Express route handlers
(`/analyzecontract`, `/analyzepdf`, `/analyze`).

External effects are made explicit parameters:
  * the Gemini `generateContent` call outcome (`GeminiOutcome`),
  * the Groq `chat.completions.create` call outcome (`GroqOutcome`),
  * the `pdf-parse` outcome (`PdfParseOutcome`),
  * the `fs.unlinkSync` outcome (`UnlinkOutcome`).
Handlers return the sequence of HTTP responses they attempt to send plus
instrumentation: the chat-completion requests issued and whether the staged
file was deleted.
-/

namespace LegalAlly

/-- A JavaScript value, as far as the handlers inspect one (the `query`
field of `req.body` is tested for truthiness before use). -/
inductive JSValue where
  | jundef : JSValue
  | jnull : JSValue
  | jbool : Bool → JSValue
  | jnum : Int → JSValue
  | jstr : String → JSValue
  deriving DecidableEq, Repr

/-- JavaScript truthiness of a `JSValue` (integers only, so no NaN case). -/
def truthy : JSValue → Bool
  | .jundef => false
  | .jnull => false
  | .jbool b => b
  | .jnum n => n != 0
  | .jstr s => s != ""

/-- One role/content message of a Groq chat-completion request. -/
structure ChatMessage where
  role : String
  content : JSValue
  deriving DecidableEq, Repr

/-- The payload of one `groq.chat.completions.create` call. -/
structure ChatRequest where
  messages : List ChatMessage
  model : String
  deriving DecidableEq, Repr

/-- `message` object of one choice of a Groq response; `content` is
`none` when the field is absent or null. -/
structure GroqMessage where
  content : Option String
  deriving DecidableEq, Repr

/-- One element of the `choices` array of a Groq response. -/
structure GroqChoice where
  message : Option GroqMessage
  deriving DecidableEq, Repr

/-- Outcome of a `groq.chat.completions.create` call: the promise rejects
with an error, or resolves to an object whose `choices` field is absent
(`returns none`) or is an array of choices. -/
inductive GroqOutcome where
  | throws : String → GroqOutcome
  | returns : Option (List GroqChoice) → GroqOutcome
  deriving DecidableEq, Repr

/-- The `response` object of a Gemini result; `textFn` is `some s` when the
`text` accessor is present and yields `s`, `none` when it is absent. -/
structure GeminiResponse where
  textFn : Option String
  deriving DecidableEq, Repr

/-- The object a resolved `model.generateContent` promise yields; its
`response` field may be absent. -/
structure GeminiResult where
  response : Option GeminiResponse
  deriving DecidableEq, Repr

/-- Outcome of a `model.generateContent` call (together with the preceding
`fs.readFileSync`, whose failure is also a thrown error inside the same
`try`): the call throws, or resolves to a possibly-absent result object. -/
inductive GeminiOutcome where
  | throws : String → GeminiOutcome
  | returns : Option GeminiResult → GeminiOutcome
  deriving DecidableEq, Repr

/-- `textResponse.replace(/\*/g, "")`: remove every asterisk. -/
def stripAsterisks (s : String) : String :=
  String.mk (s.data.filter (fun c => c != '*'))

/-- `analyzeContractWithGemini(filePath)` from `serverfinal.js` lines 28-63,
over the explicit call outcome.  Inside the `try`: an absent result, absent
`result.response` or absent `result.response.text` throws
`"Invalid response from Gemini API"`; the returned text has asterisks
stripped.  The `catch` rethrows every error as
`"Failed to analyze contract. Details: " + error.message`. -/
def analyzeContractWithGemini (call : GeminiOutcome) : Except String String :=
  match call with
  | .throws msg => .error ("Failed to analyze contract. Details: " ++ msg)
  | .returns none =>
      .error "Failed to analyze contract. Details: Invalid response from Gemini API"
  | .returns (some result) =>
      match result.response with
      | none =>
          .error "Failed to analyze contract. Details: Invalid response from Gemini API"
      | some response =>
          match response.textFn with
          | none =>
              .error "Failed to analyze contract. Details: Invalid response from Gemini API"
          | some text => .ok (stripAsterisks text)

/-- The fixed instruction template appended to the extracted document text
in `getGroqChatCompletion` (line 67). -/
def comparePromptSuffix : String :=
  "\n\nCompare it with new Indian laws and highlight what are added or removed (changes)."

/-- The single chat-completion request built by `getGroqChatCompletion`. -/
def compareRequest (pdfContent : String) : ChatRequest :=
  { messages := [{ role := "user", content := .jstr (pdfContent ++ comparePromptSuffix) }],
    model := "llama-3.3-70b-versatile" }

/-- Evaluate `chatCompletion.choices[0]?.message?.content || fallback` as the
adapters do, where an absent `choices` field makes the index access throw a
TypeError that the surrounding `catch` turns into `errorMsg` (so does a
rejected promise). -/
def groqResultText (outcome : GroqOutcome) (fallback errorMsg : String) : String :=
  match outcome with
  | .throws _ => errorMsg
  | .returns none => errorMsg
  | .returns (some choices) =>
      match choices.head? with
      | none => fallback
      | some choice =>
          match choice.message with
          | none => fallback
          | some message =>
              match message.content with
              | none => fallback
              | some s => if s == "" then fallback else s

/-- `getGroqChatCompletion(pdfContent)` from lines 66-80: wraps the text in
the comparison template, issues one chat-completion call, and never throws.
Returns the result string and the list of requests issued. -/
def getGroqChatCompletion (pdfContent : String) (outcome : GroqOutcome) :
    String × List ChatRequest :=
  (groqResultText outcome "No response from Groq." "Error processing text with Groq.",
   [compareRequest pdfContent])

/-- The single chat-completion request built by
`getGroqChatCompletionForQuery`: the query value verbatim as the one user
message. -/
def queryRequest (query : JSValue) : ChatRequest :=
  { messages := [{ role := "user", content := query }],
    model := "llama-3.3-70b-versatile" }

/-- `getGroqChatCompletionForQuery(query)` from lines 83-94: one
chat-completion call with the query verbatim, degrade-to-string on empty
response or error; never throws. -/
def getGroqChatCompletionForQuery (query : JSValue) (outcome : GroqOutcome) :
    String × List ChatRequest :=
  (groqResultText outcome "No response" "Error processing query with Groq.",
   [queryRequest query])

/-- A JSON response body sent by one of the three handlers. -/
inductive ResponseBody where
  | jsonError : String → ResponseBody
  | jsonAnalysis : String → ResponseBody
  | jsonPdf : String → String → ResponseBody
  deriving DecidableEq, Repr

/-- One HTTP response the handler attempts to send. -/
structure HttpResponse where
  status : Nat
  body : ResponseBody
  deriving DecidableEq, Repr

/-- Outcome of the `fs.unlinkSync(filePath)` call. -/
inductive UnlinkOutcome where
  | ok : UnlinkOutcome
  | fails : String → UnlinkOutcome
  deriving DecidableEq, Repr

/-- Result of one `/analyzecontract` request: every response attempted (in
order), how many times deletion of the staged file was attempted, whether
the staged file actually got deleted, and whether the Gemini provider call
was made. -/
structure ContractResult where
  responses : List HttpResponse
  unlinkAttempts : Nat
  fileDeleted : Bool
  providerCalled : Bool
  deriving DecidableEq, Repr

/-- The `/analyzecontract` handler, lines 99-113.  `file` is `req.file`
(`none` when no multipart field `contract` was uploaded; the payload is the
staged file's bytes, unused by the control flow).  Missing file: 400.
Otherwise the adapter runs; on success `res.json({analysis})` is sent and
only then `fs.unlinkSync` runs, still inside the `try`; the `catch` sends a
500 with the error message and performs no deletion. -/
def analyzecontractHandler (file : Option (List Nat)) (gemini : GeminiOutcome)
    (unlink : UnlinkOutcome) : ContractResult :=
  match file with
  | none =>
      { responses := [⟨400, .jsonError "No file uploaded"⟩],
        unlinkAttempts := 0, fileDeleted := false, providerCalled := false }
  | some _ =>
      match analyzeContractWithGemini gemini with
      | .error msg =>
          { responses := [⟨500, .jsonError msg⟩],
            unlinkAttempts := 0, fileDeleted := false, providerCalled := true }
      | .ok analysis =>
          match unlink with
          | .ok =>
              { responses := [⟨200, .jsonAnalysis analysis⟩],
                unlinkAttempts := 1, fileDeleted := true, providerCalled := true }
          | .fails msg =>
              { responses := [⟨200, .jsonAnalysis analysis⟩, ⟨500, .jsonError msg⟩],
                unlinkAttempts := 1, fileDeleted := false, providerCalled := true }

/-- Outcome of `pdfParse(req.file.buffer)`: rejects, or yields the extracted
text (`pdfText.text`). -/
inductive PdfParseOutcome where
  | throws : String → PdfParseOutcome
  | extracted : String → PdfParseOutcome
  deriving DecidableEq, Repr

/-- Result of one `/analyzepdf` or `/analyze` request: the single response
sent and the chat-completion requests issued. -/
structure HandlerResult where
  response : HttpResponse
  groqRequests : List ChatRequest
  deriving DecidableEq, Repr

/-- The `/analyzepdf` handler, lines 116-127.  `file` is `req.file` with its
in-memory buffer.  Missing file: 400.  A `pdfParse` rejection is caught and
mapped to 500; otherwise the Groq adapter (which never throws) runs and a
200 with `{pdfContent, groqResponse}` is sent. -/
def analyzepdfHandler (file : Option (List Nat)) (parse : PdfParseOutcome)
    (groq : GroqOutcome) : HandlerResult :=
  match file with
  | none => ⟨⟨400, .jsonError "PDF file is required."⟩, []⟩
  | some _ =>
      match parse with
      | .throws _ => ⟨⟨500, .jsonError "Error analyzing the PDF."⟩, []⟩
      | .extracted text =>
          let r := getGroqChatCompletion text groq
          ⟨⟨200, .jsonPdf text r.1⟩, r.2⟩

/-- The `/analyze` handler, lines 130-141.  `query` is the value of the
`query` field destructured from `req.body` (`.jundef` when absent, since
`express.json()` yields an object body).  A falsy value: 400 before any
provider call; otherwise the query adapter (which never throws) runs and a
200 with `{analysis}` is sent. -/
def analyzeHandler (query : JSValue) (groq : GroqOutcome) : HandlerResult :=
  if truthy query then
    let r := getGroqChatCompletionForQuery query groq
    ⟨⟨200, .jsonAnalysis r.1⟩, r.2⟩
  else
    ⟨⟨400, .jsonError "Query text is required."⟩, []⟩

end LegalAlly

namespace LegalAlly

/-- C1: the claim says the staged file is deleted exactly once on both the
success and the failure path.  Evaluating the handler at a failing input
(file uploaded, provider call throws) shows the catch branch sends the 500
response without ever attempting the deletion, so the staged file survives
the request. -/
theorem analyzecontract_provider_error_leaves_staged_file :
    (analyzecontractHandler (some [37]) (.throws "network error") .ok).responses
        = [⟨500, .jsonError "Failed to analyze contract. Details: network error"⟩]
      ∧ (analyzecontractHandler (some [37]) (.throws "network error") .ok).unlinkAttempts = 0
      ∧ (analyzecontractHandler (some [37]) (.throws "network error") .ok).fileDeleted = false :=
  ⟨rfl, rfl, rfl⟩

/-- C2: each of the three handlers, given a request missing its required
input, responds 400 with its exact error string and issues no provider
call, whatever the (never consulted) provider outcomes would have been. -/
theorem missing_input_rejected_without_provider_call
    (g : GeminiOutcome) (u : UnlinkOutcome) (p : PdfParseOutcome) (q1 q2 : GroqOutcome) :
    (analyzecontractHandler none g u).responses = [⟨400, .jsonError "No file uploaded"⟩]
  ∧ (analyzecontractHandler none g u).providerCalled = false
  ∧ analyzepdfHandler none p q1 = ⟨⟨400, .jsonError "PDF file is required."⟩, []⟩
  ∧ analyzeHandler .jundef q2 = ⟨⟨400, .jsonError "Query text is required."⟩, []⟩ :=
  ⟨rfl, rfl, rfl, rfl⟩

/-- C3: both text-completion adapters are total functions into strings; on
zero choices they return their literal fallback, on a thrown transport
error their literal error string, and the handlers fold those strings into
an HTTP 200 body. -/
theorem groq_adapters_degrade_to_string (t msg : String) (buf : List Nat) :
    (getGroqChatCompletion t (.returns (some []))).1 = "No response from Groq."
  ∧ (getGroqChatCompletion t (.throws msg)).1 = "Error processing text with Groq."
  ∧ (getGroqChatCompletionForQuery (.jstr t) (.returns (some []))).1 = "No response"
  ∧ (getGroqChatCompletionForQuery (.jstr t) (.throws msg)).1
        = "Error processing query with Groq."
  ∧ (analyzepdfHandler (some buf) (.extracted t) (.returns (some []))).response
        = ⟨200, .jsonPdf t "No response from Groq."⟩
  ∧ (analyzepdfHandler (some buf) (.extracted t) (.throws msg)).response
        = ⟨200, .jsonPdf t "Error processing text with Groq."⟩
  ∧ (analyzeHandler (.jstr "what is law") (.throws msg)).response
        = ⟨200, .jsonAnalysis "Error processing query with Groq."⟩
  ∧ (analyzeHandler (.jstr "what is law") (.returns (some []))).response
        = ⟨200, .jsonAnalysis "No response"⟩ :=
  ⟨rfl, rfl, rfl, rfl, rfl, rfl, rfl, rfl⟩

/-- C4: every malformed Gemini outcome (no result object, no response
field, no text accessor) and every thrown error comes out of the adapter as
an error whose message is "Failed to analyze contract. Details: " followed
by the underlying message, and the analyze-contract handler maps it to a
500 response carrying that message. -/
theorem gemini_adapter_wraps_errors (msg : String) (buf : List Nat) (u : UnlinkOutcome) :
    analyzeContractWithGemini (.returns none)
        = .error "Failed to analyze contract. Details: Invalid response from Gemini API"
  ∧ analyzeContractWithGemini (.returns (some ⟨none⟩))
        = .error "Failed to analyze contract. Details: Invalid response from Gemini API"
  ∧ analyzeContractWithGemini (.returns (some ⟨some ⟨none⟩⟩))
        = .error "Failed to analyze contract. Details: Invalid response from Gemini API"
  ∧ analyzeContractWithGemini (.throws msg)
        = .error ("Failed to analyze contract. Details: " ++ msg)
  ∧ (analyzecontractHandler (some buf) (.throws msg) u).responses
        = [⟨500, .jsonError ("Failed to analyze contract. Details: " ++ msg)⟩] :=
  ⟨rfl, rfl, rfl, rfl, rfl⟩

/-- C5: on every successful analyze-pdf request the 200 body's pdfContent
component is exactly the extractor's output for the uploaded bytes,
whatever the provider outcome was. -/
theorem analyzepdf_pdfContent_equals_extractor_output
    (buf : List Nat) (text : String) (groq : GroqOutcome) :
    (analyzepdfHandler (some buf) (.extracted text) groq).response
      = ⟨200, .jsonPdf text (getGroqChatCompletion text groq).1⟩ :=
  rfl

/-- C6: the document-analysis adapter's success path returns the provider
text with every asterisk removed, so the returned analysis contains no
asterisk; in particular "*Risk*" yields "Risk". -/
theorem gemini_success_strips_asterisks (text : String) :
    analyzeContractWithGemini (.returns (some ⟨some ⟨some text⟩⟩)) = .ok (stripAsterisks text)
  ∧ (stripAsterisks text).data.all (fun c => c != '*') = true
  ∧ stripAsterisks "*Risk*" = "Risk" := by
  refine ⟨rfl, ?_, rfl⟩
  simp only [stripAsterisks, List.all_eq_true]
  intro c hc
  exact (List.mem_filter.mp hc).2

/-- C7: the document-comparison adapter issues exactly one chat-completion
call, whose single user message is the extracted text followed by the
fixed comparison instruction, and when the provider yields a first choice
with (nonempty) content it returns that content. -/
theorem compare_adapter_single_templated_call
    (t s : String) (rest : List GroqChoice) (o : GroqOutcome) (h : s ≠ "") :
    (getGroqChatCompletion t o).2
        = [{ messages := [⟨"user", .jstr (t ++ comparePromptSuffix)⟩],
             model := "llama-3.3-70b-versatile" }]
  ∧ (getGroqChatCompletion t (.returns (some (⟨some ⟨some s⟩⟩ :: rest)))).1 = s := by
  refine ⟨rfl, ?_⟩
  simp [getGroqChatCompletion, groqResultText, h]

/-- Witness for C7 at a concrete document and provider choice. -/
theorem compare_adapter_single_templated_call_witness :
    ("answer" : String) ≠ ""
  ∧ ((getGroqChatCompletion "doc" (.throws "e")).2
        = [{ messages := [⟨"user", .jstr ("doc" ++ comparePromptSuffix)⟩],
             model := "llama-3.3-70b-versatile" }]
     ∧ (getGroqChatCompletion "doc" (.returns (some (⟨some ⟨some "answer"⟩⟩ :: [])))).1
        = "answer") :=
  ⟨by decide, compare_adapter_single_templated_call "doc" "answer" [] (.throws "e") (by decide)⟩

/-- C8: the free-text query adapter issues exactly one chat-completion call
whose single user message content is the caller's query verbatim, with no
template wrapping, for every query value and provider outcome. -/
theorem query_adapter_single_verbatim_call (q : JSValue) (o : GroqOutcome) :
    (getGroqChatCompletionForQuery q o).2
      = [{ messages := [⟨"user", q⟩], model := "llama-3.3-70b-versatile" }] :=
  rfl

/-- C9: on the analyze-contract success path the deletion runs inside the
try block after the 200 response, so when the deletion itself fails the
catch branch attempts a second, 500 response after the 200 has been sent. -/
theorem analyzecontract_unlink_failure_double_response
    (buf : List Nat) (text msg : String) :
    (analyzecontractHandler (some buf)
        (.returns (some ⟨some ⟨some text⟩⟩)) (.fails msg)).responses
        = [⟨200, .jsonAnalysis (stripAsterisks text)⟩, ⟨500, .jsonError msg⟩]
  ∧ (analyzecontractHandler (some buf)
        (.returns (some ⟨some ⟨some text⟩⟩)) (.fails msg)).unlinkAttempts = 1 :=
  ⟨rfl, rfl⟩

/-- C10: the analyze handler tests the query value's truthiness, so every
falsy query value (empty string, 0, null, undefined, false) is rejected
with 400 and the exact error string, with no provider call. -/
theorem analyze_falsy_query_rejected (q : JSValue) (o : GroqOutcome)
    (h : truthy q = false) :
    analyzeHandler q o = ⟨⟨400, .jsonError "Query text is required."⟩, []⟩ := by
  simp [analyzeHandler, h]

/-- Witness for C10 at the empty-string query. -/
theorem analyze_falsy_query_rejected_witness :
    truthy (.jstr "") = false
  ∧ analyzeHandler (.jstr "") (.throws "e")
      = ⟨⟨400, .jsonError "Query text is required."⟩, []⟩ :=
  ⟨by decide, analyze_falsy_query_rejected (.jstr "") (.throws "e") (by decide)⟩

end LegalAlly
